import Mathlib

/-!
Verification of the nursery-ai image pipeline (src/nursery_ai.py).

The pure canvas/mask construction `create_extended_canvas_and_mask` is
embedded directly; the PIL library operations Gaussian blur and resize are
modelled as images of the library-guaranteed dimensions whose pixel contents
are given by abstract sampler functions (the pipeline never inspects those
pixels).  The batch driver `generate_images_from_csv` is embedded as a
recursion over CSV rows; the two remote services and the filesystem are
abstracted into a per-line outcome oracle and an event trace recording file
writes, skips, the limit stop and logged per-record errors, in program order.
-/

namespace NurseryAI

/-- A PIL image: a color mode string (for example "RGB" or single-channel
"L"), pixel dimensions, and a total pixel lookup function. -/
structure PILImage (P : Type) where
  mode : String
  width : Nat
  height : Nat
  px : Nat → Nat → P

/-- `Image.new(mode, size, color)`: a constant image. -/
def Image_new {P : Type} (mode : String) (size : Nat × Nat) (color : P) : PILImage P :=
  ⟨mode, size.1, size.2, fun _ _ => color⟩

/-- Membership of destination pixel `(x, y)` in the rectangle obtained by
placing an image of size `sw × sh` at (possibly negative) position `pos`.
PIL's `paste` clips this rectangle to the destination bounds; since pixel
coordinates are naturals, the clipping at the low side is exactly the
coordinates for which this test holds. -/
def inPasteRect (pos : Int × Int) (sw sh : Nat) (x y : Nat) : Bool :=
  pos.1 ≤ (x : Int) && (x : Int) < pos.1 + (sw : Int) &&
  pos.2 ≤ (y : Int) && (y : Int) < pos.2 + (sh : Int)

/-- `dest.paste(src, pos)`: overwrite the clipped rectangle of `dest` with
the pixels of `src`; dimensions and mode of `dest` are unchanged. -/
def Image_paste {P : Type} (dest src : PILImage P) (pos : Int × Int) : PILImage P :=
  { dest with
    px := fun x y =>
      if inPasteRect pos src.width src.height x y then
        src.px ((x : Int) - pos.1).toNat ((y : Int) - pos.2).toNat
      else
        dest.px x y }

/-- `image.filter(ImageFilter.GaussianBlur(radius))`: same mode and
dimensions as the input; pixel contents given by the abstract sampler `g`
applied to the radius and the source image. -/
def ImageFilter_GaussianBlur {P : Type} (g : Nat → PILImage P → Nat → Nat → P)
    (radius : Nat) (image : PILImage P) : PILImage P :=
  ⟨image.mode, image.width, image.height, g radius image⟩

/-- `image.resize(size)`: an image of exactly the requested size (PIL's
contract), same mode, pixel contents given by the abstract sampler `f`. -/
def Image_resize {P : Type} (f : PILImage P → Nat × Nat → Nat → Nat → P)
    (image : PILImage P) (size : Nat × Nat) : PILImage P :=
  ⟨image.mode, size.1, size.2, f image size⟩

/-- The errors the embedded code can raise. -/
inductive PyError where
  | unsupportedAspectRatio (ratio : String)
deriving DecidableEq

/-- Target dimensions and paste position computed by the `if/elif/else` at
the top of `create_extended_canvas_and_mask`.  Python's `//` is floor
division, hence `Int.fdiv`. -/
structure CanvasGeometry where
  target_width : Nat
  target_height : Nat
  paste_x : Int
  paste_y : Int
deriving DecidableEq

/-- Lines 44-60 of src/nursery_ai.py: dimensions and paste position by
aspect ratio, or a `ValueError` (`unsupportedAspectRatio`) otherwise. -/
def canvasGeometry (original_width original_height : Nat) (aspect_ratio : String) :
    Except PyError CanvasGeometry :=
  if aspect_ratio = "16:9" then
    .ok ⟨1824, original_height, Int.fdiv ((1824 : Int) - original_width) 2, 0⟩
  else if aspect_ratio = "9:16" then
    .ok ⟨original_width, 1824, 0, Int.fdiv ((1824 : Int) - original_height) 2⟩
  else
    .error (.unsupportedAspectRatio aspect_ratio)

/-- `create_extended_canvas_and_mask(image, aspect_ratio)` from
src/nursery_ai.py, parameterized by the abstract blur sampler `g` and resize
sampler `f` standing for the corresponding PIL internals. -/
def create_extended_canvas_and_mask {P : Type}
    (g : Nat → PILImage P → Nat → Nat → P)
    (f : PILImage P → Nat × Nat → Nat → Nat → P)
    (image : PILImage P) (aspect_ratio : String) :
    Except PyError (PILImage P × PILImage Nat) :=
  match canvasGeometry image.width image.height aspect_ratio with
  | .error e => .error e
  | .ok geo =>
    let target_size : Nat × Nat := (geo.target_width, geo.target_height)
    let paste_position : Int × Int := (geo.paste_x, geo.paste_y)
    let blurred := ImageFilter_GaussianBlur g 20 image
    let extended_canvas := Image_resize f blurred target_size
    let extended_canvas := Image_paste extended_canvas image paste_position
    let mask := Image_new "L" target_size (255 : Nat)
    let black_box := Image_new "L" (image.width, image.height) (0 : Nat)
    let mask := Image_paste mask black_box paste_position
    .ok (extended_canvas, mask)

/-- Where, if anywhere, processing of one record fails inside the `try`
block of `generate_images_from_csv` (the external services and the
filesystem are outside src/, so their behaviour per line is an oracle). -/
inductive RecOutcome where
  | genFail
  | debugCanvasFail
  | debugMaskFail
  | inpaintFail
  | finalSaveFail
  | ok
deriving DecidableEq

/-- Observable events of one driver run, in program order: the limit-reached
stop, the empty-line skip, the base-image request to the generation service,
file writes (path relative to the output directory), and the caught-and-
logged per-record error. -/
inductive Event where
  | limitStop (line : Nat)
  | skipEmpty (line : Nat)
  | genRequested (line : Nat)
  | wroteDebug (line : Nat) (path : String)
  | wroteFinal (line : Nat) (path : String)
  | errorLogged (line : Nat)
deriving DecidableEq

/-- Python `str.strip()`: remove whitespace from both ends of the string. -/
def pyStrip (s : String) : String :=
  ⟨((s.data.dropWhile Char.isWhitespace).reverse.dropWhile Char.isWhitespace).reverse⟩

/-- `not row or not row[0].strip()`: empty row, or whitespace-only first
cell. -/
def rowBlank (row : List String) : Bool :=
  match row with
  | [] => true
  | cell :: _ => pyStrip cell = ""

/-- Path of the debug canvas file, relative to the output directory. -/
def debugCanvasPath (n : Nat) : String := "debug/" ++ toString n ++ "_canvas.png"

/-- Path of the debug mask file, relative to the output directory. -/
def debugMaskPath (n : Nat) : String := "debug/" ++ toString n ++ "_mask.png"

/-- Path of the final image file, relative to the output directory. -/
def finalPath (n : Nat) : String := toString n ++ ".png"

/-- `max_lines is not None and processed_count >= max_lines`. -/
def limitReached (max_lines : Option Nat) (processed_count : Nat) : Bool :=
  match max_lines with
  | none => false
  | some n => processed_count ≥ n

/-- The `try` block for one non-blank record (lines 155-202 of
src/nursery_ai.py): size selection raises for an unsupported ratio before
any base image is requested; otherwise the record runs until `outcome` says
it fails, every raise being caught and logged by the `except` at the driver
boundary.  Returns the events of this record and whether the final save
succeeded (which is what increments `processed_count`). -/
def processRecord (aspect_ratio : String) (line_number : Nat) (outcome : RecOutcome) :
    List Event × Bool :=
  if aspect_ratio = "16:9" ∨ aspect_ratio = "9:16" then
    match outcome with
    | .genFail =>
        ([.genRequested line_number, .errorLogged line_number], false)
    | .debugCanvasFail =>
        ([.genRequested line_number, .errorLogged line_number], false)
    | .debugMaskFail =>
        ([.genRequested line_number,
          .wroteDebug line_number (debugCanvasPath line_number),
          .errorLogged line_number], false)
    | .inpaintFail =>
        ([.genRequested line_number,
          .wroteDebug line_number (debugCanvasPath line_number),
          .wroteDebug line_number (debugMaskPath line_number),
          .errorLogged line_number], false)
    | .finalSaveFail =>
        ([.genRequested line_number,
          .wroteDebug line_number (debugCanvasPath line_number),
          .wroteDebug line_number (debugMaskPath line_number),
          .errorLogged line_number], false)
    | .ok =>
        ([.genRequested line_number,
          .wroteDebug line_number (debugCanvasPath line_number),
          .wroteDebug line_number (debugMaskPath line_number),
          .wroteFinal line_number (finalPath line_number)], true)
  else
    ([.errorLogged line_number], false)

/-- The `for line_number, row in enumerate(csv_reader, start=1)` loop of
`generate_images_from_csv`: first the limit check (break), then the
blank-row skip (continue), then the per-record `try` block. -/
def processRows (aspect_ratio : String) (max_lines : Option Nat)
    (oracle : Nat → RecOutcome) :
    List (List String) → Nat → Nat → List Event
  | [], _, _ => []
  | row :: rest, line_number, processed_count =>
    if limitReached max_lines processed_count then
      [.limitStop line_number]
    else if rowBlank row then
      .skipEmpty line_number ::
        processRows aspect_ratio max_lines oracle rest (line_number + 1) processed_count
    else
      (processRecord aspect_ratio line_number (oracle line_number)).1 ++
        processRows aspect_ratio max_lines oracle rest (line_number + 1)
          (if (processRecord aspect_ratio line_number (oracle line_number)).2 then
            processed_count + 1
          else processed_count)

/-- `generate_images_from_csv(csv_file_path, output_dir, max_lines,
aspect_ratio)`: the driver run over the parsed CSV rows, starting at line
number 1 with `processed_count = 0`. -/
def generate_images_from_csv (aspect_ratio : String) (max_lines : Option Nat)
    (oracle : Nat → RecOutcome) (rows : List (List String)) : List Event :=
  processRows aspect_ratio max_lines oracle rows 1 0

/-- Line numbers of the final (non-debug) images written during a run. -/
def finalWrites (evs : List Event) : List Nat :=
  evs.filterMap fun e =>
    match e with
    | .wroteFinal n _ => some n
    | _ => none

/-! Concrete fixtures used by the witness theorems. -/

/-- A concrete blur sampler. -/
def g0 : Nat → PILImage Nat → Nat → Nat → Nat := fun _ _ _ _ => 7

/-- A concrete resize sampler. -/
def f0 : PILImage Nat → Nat × Nat → Nat → Nat → Nat := fun _ _ _ _ => 9

/-- A concrete 1024×1536 portrait base image. -/
def testImg : PILImage Nat := ⟨"RGB", 1024, 1536, fun x y => x + y⟩

/-- A concrete image larger than 1824 on both axes. -/
def bigImg : PILImage Nat := ⟨"RGB", 2000, 2000, fun _ _ => 3⟩

/-- An oracle that fails base-image generation exactly at line 2. -/
def failAt2 : Nat → RecOutcome := fun n => if n = 2 then .genFail else .ok

/-- An oracle under which every record succeeds. -/
def allOk : Nat → RecOutcome := fun _ => .ok

/-- Floor division by two of a negative integer is negative
(Python's `//` on a negative difference). -/
theorem fdiv_two_neg : ∀ a : Int, a < 0 → Int.fdiv a 2 < 0
  | Int.ofNat n, h => absurd h (by simp [Int.ofNat_eq_natCast])
  | Int.negSucc m, _ => by
      have hm : Int.fdiv (Int.negSucc m) 2 = Int.negSucc (m / 2) := rfl
      rw [hm]
      exact Int.negSucc_lt_zero _

/-- C1: for any input image, ratio "16:9" gives a 1824 × h canvas with paste
offset ((1824 - w) // 2, 0), and ratio "9:16" gives a w × 1824 canvas with
paste offset (0, (1824 - h) // 2); the non-extended axis is unchanged, and
the concrete 1024×1536 portrait case yields a 1024×1824 canvas with vertical
offset 144. -/
theorem C1_canvas_geometry {P : Type} (g : Nat → PILImage P → Nat → Nat → P)
    (f : PILImage P → Nat × Nat → Nat → Nat → P) (img : PILImage P) :
    canvasGeometry img.width img.height "16:9" =
      .ok ⟨1824, img.height, Int.fdiv ((1824 : Int) - img.width) 2, 0⟩
  ∧ canvasGeometry img.width img.height "9:16" =
      .ok ⟨img.width, 1824, 0, Int.fdiv ((1824 : Int) - img.height) 2⟩
  ∧ (create_extended_canvas_and_mask g f img "16:9").map
      (fun cm => (cm.1.width, cm.1.height)) = .ok (1824, img.height)
  ∧ (create_extended_canvas_and_mask g f img "9:16").map
      (fun cm => (cm.1.width, cm.1.height)) = .ok (img.width, 1824)
  ∧ canvasGeometry 1024 1536 "9:16" = .ok ⟨1024, 1824, 0, 144⟩ :=
  ⟨rfl, rfl, rfl, rfl, rfl⟩

/-- C9: `create_extended_canvas_and_mask` is deterministic — two calls on
equal inputs (same blur and resize samplers, same image, same ratio) return
equal canvas/mask results; in the embedding it is a pure function of its
arguments, with no other state. -/
theorem C9_deterministic {P : Type} (g : Nat → PILImage P → Nat → Nat → P)
    (f : PILImage P → Nat × Nat → Nat → Nat → P) (img img' : PILImage P)
    (ratio ratio' : String) (h1 : img = img') (h2 : ratio = ratio') :
    create_extended_canvas_and_mask g f img ratio =
      create_extended_canvas_and_mask g f img' ratio' := by
  rw [h1, h2]

/-- Witness for C9 at a concrete image and ratio. -/
theorem C9_witness :
    create_extended_canvas_and_mask g0 f0 testImg "9:16" =
      create_extended_canvas_and_mask g0 f0 testImg "9:16" :=
  C9_deterministic g0 f0 testImg testImg "9:16" "9:16" rfl rfl

/-- With an unsupported ratio the driver never requests a base image: every
non-blank record raises at size selection, before the generation call. -/
theorem genRequested_not_mem_of_bad_ratio (ratio : String)
    (h1 : ratio ≠ "16:9") (h2 : ratio ≠ "9:16")
    (max_lines : Option Nat) (oracle : Nat → RecOutcome) :
    ∀ (rows : List (List String)) (ln pc j : Nat),
      Event.genRequested j ∉ processRows ratio max_lines oracle rows ln pc := by
  intro rows
  induction rows with
  | nil => intro ln pc j; simp [processRows]
  | cons row rest ih =>
    intro ln pc j
    unfold processRows
    by_cases hl : limitReached max_lines pc = true
    · simp [hl]
    · by_cases hb : rowBlank row = true
      · simp only [hl, hb, if_true, if_false, Bool.false_eq_true, List.mem_cons]
        rintro (h | h)
        · exact Event.noConfusion h
        · exact ih (ln + 1) pc j h
      · simp only [hl, hb, if_true, if_false, Bool.false_eq_true, List.mem_append,
          processRecord, h1, h2, or_self, List.mem_cons, List.not_mem_nil, or_false]
        rintro (h | h)
        · exact Event.noConfusion h
        · exact ih (ln + 1) pc j h

/-- C6: for any ratio string outside {"16:9", "9:16"},
`create_extended_canvas_and_mask` fails with the unsupported-aspect-ratio
error (returning no canvas or mask), and a driver run with that ratio never
requests a base image from the generation service. -/
theorem C6_unsupported_ratio {P : Type} (g : Nat → PILImage P → Nat → Nat → P)
    (f : PILImage P → Nat × Nat → Nat → Nat → P) (img : PILImage P)
    (ratio : String) (hr : ratio ≠ "16:9" ∧ ratio ≠ "9:16") :
    create_extended_canvas_and_mask g f img ratio =
      .error (.unsupportedAspectRatio ratio)
  ∧ ∀ (rows : List (List String)) (max_lines : Option Nat)
      (oracle : Nat → RecOutcome) (j : Nat),
      Event.genRequested j ∉ generate_images_from_csv ratio max_lines oracle rows := by
  constructor
  · unfold create_extended_canvas_and_mask canvasGeometry
    simp [hr.1, hr.2]
  · intro rows max_lines oracle j
    exact genRequested_not_mem_of_bad_ratio ratio hr.1 hr.2 max_lines oracle rows 1 0 j

/-- Witness for C6 at the concrete unsupported ratio "4:3". -/
theorem C6_witness :
    create_extended_canvas_and_mask g0 f0 testImg "4:3" =
      .error (.unsupportedAspectRatio "4:3")
  ∧ ∀ (rows : List (List String)) (max_lines : Option Nat)
      (oracle : Nat → RecOutcome) (j : Nat),
      Event.genRequested j ∉ generate_images_from_csv "4:3" max_lines oracle rows :=
  C6_unsupported_ratio g0 f0 testImg "4:3" (by decide)

/-- C10: `create_extended_canvas_and_mask` performs no input-size
validation — for either supported ratio it returns a canvas and mask for an
image of any dimensions, and when the original exceeds 1824 on the extended
axis the computed paste offset is negative (floor division) rather than an
error. -/
theorem C10_no_size_validation {P : Type} (g : Nat → PILImage P → Nat → Nat → P)
    (f : PILImage P → Nat × Nat → Nat → Nat → P) (img : PILImage P)
    (ratio : String) (hr : ratio = "16:9" ∨ ratio = "9:16") :
    (∃ c m, create_extended_canvas_and_mask g f img ratio = .ok (c, m))
  ∧ (1824 < img.width →
      ∃ geo, canvasGeometry img.width img.height "16:9" = .ok geo ∧ geo.paste_x < 0)
  ∧ (1824 < img.height →
      ∃ geo, canvasGeometry img.width img.height "9:16" = .ok geo ∧ geo.paste_y < 0) := by
  refine ⟨?_, ?_, ?_⟩
  · rcases hr with h | h <;> subst h <;> exact ⟨_, _, rfl⟩
  · intro hw
    refine ⟨_, rfl, ?_⟩
    exact fdiv_two_neg _ (by omega)
  · intro hh
    refine ⟨_, rfl, ?_⟩
    exact fdiv_two_neg _ (by omega)

/-- Witness for C10 at a concrete 2000×2000 image with ratio "16:9". -/
theorem C10_witness :
    (∃ c m, create_extended_canvas_and_mask g0 f0 bigImg "16:9" = .ok (c, m))
  ∧ (∃ geo, canvasGeometry bigImg.width bigImg.height "16:9" = .ok geo ∧ geo.paste_x < 0)
  ∧ (∃ geo, canvasGeometry bigImg.width bigImg.height "9:16" = .ok geo ∧ geo.paste_y < 0) :=
  ⟨(C10_no_size_validation g0 f0 bigImg "16:9" (Or.inl rfl)).1,
   (C10_no_size_validation g0 f0 bigImg "16:9" (Or.inl rfl)).2.1 (by decide),
   (C10_no_size_validation g0 f0 bigImg "16:9" (Or.inl rfl)).2.2 (by decide)⟩

/-- C2: the mask is a single-channel ("L") image of exactly the extended
canvas's pixel dimensions; every pixel in the rectangle placed at the paste
offset with the original image's size has the preserve value 0 (black), and
every pixel outside it has the fill value 255 (white). -/
theorem C2_mask_correct {P : Type} (g : Nat → PILImage P → Nat → Nat → P)
    (f : PILImage P → Nat × Nat → Nat → Nat → P) (img : PILImage P)
    (ratio : String) (c : PILImage P) (m : PILImage Nat) (geo : CanvasGeometry)
    (hg : canvasGeometry img.width img.height ratio = .ok geo)
    (h : create_extended_canvas_and_mask g f img ratio = .ok (c, m)) :
    m.mode = "L" ∧ m.width = c.width ∧ m.height = c.height
  ∧ (∀ x y : Nat,
      inPasteRect (geo.paste_x, geo.paste_y) img.width img.height x y = true →
        m.px x y = 0)
  ∧ (∀ x y : Nat,
      inPasteRect (geo.paste_x, geo.paste_y) img.width img.height x y = false →
        m.px x y = 255) := by
  unfold create_extended_canvas_and_mask at h
  rw [hg] at h
  simp only [Except.ok.injEq, Prod.mk.injEq] at h
  obtain ⟨hc, hm⟩ := h
  subst hc hm
  refine ⟨rfl, rfl, rfl, ?_, ?_⟩
  · intro x y hxy
    simp [Image_paste, Image_new, hxy]
  · intro x y hxy
    simp [Image_paste, Image_new, hxy]

/-- Witness canvas for the 1024×1536 portrait fixture under ratio "9:16". -/
def testCanvas : PILImage Nat :=
  Image_paste (Image_resize f0 (ImageFilter_GaussianBlur g0 20 testImg) (1024, 1824))
    testImg ((0 : Int), (144 : Int))

/-- Witness mask for the 1024×1536 portrait fixture under ratio "9:16". -/
def testMask : PILImage Nat :=
  Image_paste (Image_new "L" (1024, 1824) 255) (Image_new "L" (1024, 1536) 0)
    ((0 : Int), (144 : Int))

/-- Witness for C2 at the concrete 1024×1536 portrait fixture. -/
theorem C2_witness :
    testMask.mode = "L" ∧ testMask.width = testCanvas.width
  ∧ testMask.height = testCanvas.height
  ∧ (∀ x y : Nat, inPasteRect ((0 : Int), (144 : Int)) 1024 1536 x y = true →
      testMask.px x y = 0)
  ∧ (∀ x y : Nat, inPasteRect ((0 : Int), (144 : Int)) 1024 1536 x y = false →
      testMask.px x y = 255) :=
  C2_mask_correct g0 f0 testImg "9:16" testCanvas testMask ⟨1024, 1824, 0, 144⟩ rfl rfl

/-- C3: inside the paste rectangle every canvas pixel equals the
corresponding pixel of the unmodified original image; outside the paste
rectangle every canvas pixel comes from the radius-20 Gaussian-blurred copy
of the original resized (stretched) to the full target dimensions. -/
theorem C3_canvas_content {P : Type} (g : Nat → PILImage P → Nat → Nat → P)
    (f : PILImage P → Nat × Nat → Nat → Nat → P) (img : PILImage P)
    (ratio : String) (c : PILImage P) (m : PILImage Nat) (geo : CanvasGeometry)
    (hg : canvasGeometry img.width img.height ratio = .ok geo)
    (h : create_extended_canvas_and_mask g f img ratio = .ok (c, m)) :
    (∀ x y : Nat,
      inPasteRect (geo.paste_x, geo.paste_y) img.width img.height x y = true →
        c.px x y = img.px ((x : Int) - geo.paste_x).toNat ((y : Int) - geo.paste_y).toNat)
  ∧ (∀ x y : Nat,
      inPasteRect (geo.paste_x, geo.paste_y) img.width img.height x y = false →
        c.px x y = (Image_resize f (ImageFilter_GaussianBlur g 20 img)
          (geo.target_width, geo.target_height)).px x y) := by
  unfold create_extended_canvas_and_mask at h
  rw [hg] at h
  simp only [Except.ok.injEq, Prod.mk.injEq] at h
  obtain ⟨hc, hm⟩ := h
  subst hc hm
  constructor
  · intro x y hxy
    simp [Image_paste, hxy]
  · intro x y hxy
    simp [Image_paste, hxy]

/-- Witness for C3 at the concrete portrait fixture, evaluated at an inside
pixel (0, 144) and an outside pixel (0, 0). -/
theorem C3_witness :
    testCanvas.px 0 144 = testImg.px 0 0
  ∧ testCanvas.px 0 0 = (Image_resize f0 (ImageFilter_GaussianBlur g0 20 testImg)
      (1024, 1824)).px 0 0 :=
  ⟨(C3_canvas_content g0 f0 testImg "9:16" testCanvas testMask ⟨1024, 1824, 0, 144⟩
      rfl rfl).1 0 144 (by decide),
   (C3_canvas_content g0 f0 testImg "9:16" testCanvas testMask ⟨1024, 1824, 0, 144⟩
      rfl rfl).2 0 0 (by decide)⟩

/-- `finalWrites` distributes over list append. -/
theorem finalWrites_append (a b : List Event) :
    finalWrites (a ++ b) = finalWrites a ++ finalWrites b :=
  List.filterMap_append a b _

/-- The final writes of one record: exactly its own line number when the
ratio is supported and the record succeeded, nothing otherwise. -/
theorem processRecord_finalWrites (ratio : String) (ln : Nat) (o : RecOutcome) :
    finalWrites (processRecord ratio ln o).1 =
      if (ratio = "16:9" ∨ ratio = "9:16") ∧ o = .ok then [ln] else [] := by
  unfold processRecord
  by_cases hr : ratio = "16:9" ∨ ratio = "9:16" <;> cases o <;>
    simp [hr, finalWrites]

/-- The saved flag of one record holds exactly when the ratio is supported
and the record succeeded. -/
theorem processRecord_saved (ratio : String) (ln : Nat) (o : RecOutcome) :
    (processRecord ratio ln o).2 = true ↔
      ((ratio = "16:9" ∨ ratio = "9:16") ∧ o = .ok) := by
  unfold processRecord
  by_cases hr : ratio = "16:9" ∨ ratio = "9:16" <;> cases o <;> simp [hr]

/-- A final-image write event of one record carries its own line number, the
`<line>.png` path, and only occurs on success. -/
theorem processRecord_wroteFinal (ratio : String) (ln : Nat) (o : RecOutcome)
    (n : Nat) (p : String)
    (h : Event.wroteFinal n p ∈ (processRecord ratio ln o).1) :
    n = ln ∧ p = finalPath ln ∧ o = .ok := by
  unfold processRecord at h
  by_cases hr : ratio = "16:9" ∨ ratio = "9:16" <;> cases o <;> simp_all

/-- A debug write event of one record carries its own line number and one of
the two `debug/<line>_*.png` paths. -/
theorem processRecord_wroteDebug (ratio : String) (ln : Nat) (o : RecOutcome)
    (n : Nat) (p : String)
    (h : Event.wroteDebug n p ∈ (processRecord ratio ln o).1) :
    n = ln ∧ (p = debugCanvasPath ln ∨ p = debugMaskPath ln) := by
  unfold processRecord at h
  by_cases hr : ratio = "16:9" ∨ ratio = "9:16" <;> cases o <;> simp_all <;>
    tauto

/-- The loop writes at most `N - processed_count` further final images when
the limit is `N`. -/
theorem processRows_finalWrites_length (ratio : String)
    (oracle : Nat → RecOutcome) (N : Nat) :
    ∀ (rows : List (List String)) (ln pc : Nat),
      (finalWrites (processRows ratio (some N) oracle rows ln pc)).length ≤ N - pc := by
  intro rows
  induction rows with
  | nil => intro ln pc; simp [processRows, finalWrites]
  | cons row rest ih =>
    intro ln pc
    unfold processRows
    by_cases hl : limitReached (some N) pc = true
    · rw [if_pos hl]; simp [finalWrites]
    · rw [if_neg hl]
      have hpc : pc < N := by
        simp only [limitReached, ge_iff_le, decide_eq_true_eq] at hl
        omega
      by_cases hb : rowBlank row = true
      · rw [if_pos hb]
        have hsk : finalWrites (Event.skipEmpty ln ::
            processRows ratio (some N) oracle rest (ln + 1) pc) =
            finalWrites (processRows ratio (some N) oracle rest (ln + 1) pc) := by
          simp [finalWrites]
        rw [hsk]
        exact ih (ln + 1) pc
      · rw [if_neg hb, finalWrites_append, List.length_append,
            processRecord_finalWrites]
        by_cases ho : (ratio = "16:9" ∨ ratio = "9:16") ∧ oracle ln = .ok
        · rw [if_pos ho,
              if_pos ((processRecord_saved ratio ln (oracle ln)).mpr ho)]
          have := ih (ln + 1) (pc + 1)
          simp only [List.length_cons, List.length_nil]
          omega
        · rw [if_neg ho,
              if_neg (fun hh => ho ((processRecord_saved ratio ln (oracle ln)).mp hh))]
          have := ih (ln + 1) pc
          simp only [List.length_nil]
          omega

/-- Every final-image write of a loop run carries the `<line>.png` path of
its line number `n`, comes from a successful record, and `n` is the 1-based
position (counted from `ln`) of a non-blank row of the remaining CSV. -/
theorem processRows_wroteFinal (ratio : String) (max_lines : Option Nat)
    (oracle : Nat → RecOutcome) :
    ∀ (rows : List (List String)) (ln pc n : Nat) (p : String),
      Event.wroteFinal n p ∈ processRows ratio max_lines oracle rows ln pc →
        p = finalPath n ∧ oracle n = .ok ∧ ln ≤ n ∧ n - ln < rows.length ∧
        rowBlank (rows.getD (n - ln) []) = false := by
  intro rows
  induction rows with
  | nil => intro ln pc n p h; simp [processRows] at h
  | cons row rest ih =>
    intro ln pc n p h
    unfold processRows at h
    by_cases hl : limitReached max_lines pc = true
    · rw [if_pos hl] at h; simp at h
    · rw [if_neg hl] at h
      by_cases hb : rowBlank row = true
      · rw [if_pos hb] at h
        rcases List.mem_cons.mp h with h1 | h2
        · exact Event.noConfusion h1
        · obtain ⟨hp, ho, hln, hlt, hnb⟩ := ih (ln + 1) pc n p h2
          refine ⟨hp, ho, by omega, by simp only [List.length_cons]; omega, ?_⟩
          have hix : n - ln = (n - (ln + 1)) + 1 := by omega
          rw [hix, List.getD_cons_succ]
          exact hnb
      · rw [if_neg hb] at h
        rcases List.mem_append.mp h with h1 | h2
        · obtain ⟨hn, hp, ho⟩ := processRecord_wroteFinal ratio ln (oracle ln) n p h1
          subst hn
          simp only [Bool.not_eq_true] at hb
          refine ⟨hp, ho, Nat.le_refl _, ?_, ?_⟩
          · simp [List.length_cons]
          · simpa [Nat.sub_self] using hb
        · obtain ⟨hp, ho, hln, hlt, hnb⟩ := ih (ln + 1) _ n p h2
          refine ⟨hp, ho, by omega, by simp only [List.length_cons]; omega, ?_⟩
          have hix : n - ln = (n - (ln + 1)) + 1 := by omega
          rw [hix, List.getD_cons_succ]
          exact hnb

/-- Every debug write of a loop run carries one of the two debug paths of
its line number. -/
theorem processRows_wroteDebug (ratio : String) (max_lines : Option Nat)
    (oracle : Nat → RecOutcome) :
    ∀ (rows : List (List String)) (ln pc n : Nat) (p : String),
      Event.wroteDebug n p ∈ processRows ratio max_lines oracle rows ln pc →
        p = debugCanvasPath n ∨ p = debugMaskPath n := by
  intro rows
  induction rows with
  | nil => intro ln pc n p h; simp [processRows] at h
  | cons row rest ih =>
    intro ln pc n p h
    unfold processRows at h
    by_cases hl : limitReached max_lines pc = true
    · rw [if_pos hl] at h; simp at h
    · rw [if_neg hl] at h
      by_cases hb : rowBlank row = true
      · rw [if_pos hb] at h
        rcases List.mem_cons.mp h with h1 | h2
        · exact Event.noConfusion h1
        · exact ih (ln + 1) pc n p h2
      · rw [if_neg hb] at h
        rcases List.mem_append.mp h with h1 | h2
        · obtain ⟨hn, hps⟩ := processRecord_wroteDebug ratio ln (oracle ln) n p h1
          subst hn
          exact hps
        · exact ih (ln + 1) _ n p h2

/-- A line number is among the final writes exactly when some final-image
write event for it is in the trace. -/
theorem mem_finalWrites_iff (evs : List Event) (n : Nat) :
    n ∈ finalWrites evs ↔ ∃ p, Event.wroteFinal n p ∈ evs := by
  simp only [finalWrites, List.mem_filterMap]
  constructor
  · rintro ⟨e, he, hf⟩
    cases e <;> simp only [Option.some.injEq, reduceCtorEq] at hf
    case wroteFinal k q =>
      subst hf
      exact ⟨q, he⟩
  · rintro ⟨p, hp⟩
    exact ⟨Event.wroteFinal n p, hp, rfl⟩

/-- C4: with `limit = N`, at most N final images are written (debug files
excluded), because iteration stops once the count of successfully saved
images reaches N; moreover every written final image comes from a record
whose processing succeeded and whose CSV row is non-blank, so failed records
and blank rows never add to the count. -/
theorem C4_limit_cap (ratio : String) (oracle : Nat → RecOutcome)
    (rows : List (List String)) (N : Nat) :
    (finalWrites (generate_images_from_csv ratio (some N) oracle rows)).length ≤ N
  ∧ (∀ n, n ∈ finalWrites (generate_images_from_csv ratio (some N) oracle rows) →
      oracle n = .ok ∧ rowBlank (rows.getD (n - 1) []) = false) := by
  constructor
  · have h := processRows_finalWrites_length ratio oracle N rows 1 0
    simpa [generate_images_from_csv] using h
  · intro n hn
    obtain ⟨p, hp⟩ := (mem_finalWrites_iff _ n).mp hn
    obtain ⟨_, ho, _, _, hnb⟩ :=
      processRows_wroteFinal ratio (some N) oracle rows 1 0 n p hp
    exact ⟨ho, hnb⟩

/-- Witness for C4 at a concrete two-row CSV with limit 1. -/
theorem C4_witness :
    (finalWrites (generate_images_from_csv "16:9" (some 1) allOk [["a"], ["b"]])).length ≤ 1
  ∧ (allOk 1 = .ok ∧ rowBlank (([["a"], ["b"]] : List (List String)).getD 0 []) = false) :=
  ⟨(C4_limit_cap "16:9" allOk [["a"], ["b"]] 1).1,
   (C4_limit_cap "16:9" allOk [["a"], ["b"]] 1).2 1 (by decide)⟩

/-- C5: per-record failure isolation — a record whose processing fails at
any step never contributes a final output file, and the batch continues: in
the concrete three-line scenario where base-image generation throws for
line 2, the failure is logged for line 2 and lines 1 and 3 still produce
their final images. -/
theorem C5_failure_isolation (ratio : String) (max_lines : Option Nat)
    (oracle : Nat → RecOutcome) (rows : List (List String)) (j : Nat)
    (hj : oracle j ≠ .ok) :
    j ∉ finalWrites (generate_images_from_csv ratio max_lines oracle rows)
  ∧ Event.errorLogged 2 ∈
      generate_images_from_csv "16:9" none failAt2 [["a"], ["b"], ["c"]]
  ∧ finalWrites
      (generate_images_from_csv "16:9" none failAt2 [["a"], ["b"], ["c"]]) = [1, 3] := by
  refine ⟨?_, by decide, by decide⟩
  intro hn
  obtain ⟨p, hp⟩ := (mem_finalWrites_iff _ j).mp hn
  exact hj (processRows_wroteFinal ratio max_lines oracle rows 1 0 j p hp).2.1

/-- Witness for C5 at the concrete scenario: line 2 fails, so 2 is not among
the final writes, and lines 1 and 3 are. -/
theorem C5_witness :
    2 ∉ finalWrites (generate_images_from_csv "16:9" none failAt2 [["a"], ["b"], ["c"]])
  ∧ Event.errorLogged 2 ∈
      generate_images_from_csv "16:9" none failAt2 [["a"], ["b"], ["c"]]
  ∧ finalWrites
      (generate_images_from_csv "16:9" none failAt2 [["a"], ["b"], ["c"]]) = [1, 3] :=
  C5_failure_isolation "16:9" none failAt2 [["a"], ["b"], ["c"]] 2 (by decide)

/-- C7 counterexample: line numbers do not skip blank lines.  For the CSV
whose row 1 is blank and row 2 is "a cat", the single record is written as
2.png, not 1.png — the ordinal counts every CSV row, blanks included. -/
theorem C7_counterexample :
    Event.wroteFinal 1 (finalPath 1) ∉
      generate_images_from_csv "16:9" none allOk [[""], ["a cat"]]
  ∧ Event.wroteFinal 2 (finalPath 2) ∈
      generate_images_from_csv "16:9" none allOk [[""], ["a cat"]]
  ∧ finalWrites (generate_images_from_csv "16:9" none allOk [[""], ["a cat"]]) = [2] := by
  decide

/-- C7 as amended: each record's line number is its 1-based position among
all CSV rows, blank rows included (a blank row consumes a line number but
yields no record); the final image is written as `<lineNumber>.png` and the
debug files as `debug/<lineNumber>_canvas.png` and
`debug/<lineNumber>_mask.png`. -/
theorem C7_line_numbers (ratio : String) (max_lines : Option Nat)
    (oracle : Nat → RecOutcome) (rows : List (List String)) (n : Nat) (p : String) :
    (Event.wroteFinal n p ∈ generate_images_from_csv ratio max_lines oracle rows →
      p = finalPath n ∧ 1 ≤ n ∧ n - 1 < rows.length ∧
      rowBlank (rows.getD (n - 1) []) = false)
  ∧ (Event.wroteDebug n p ∈ generate_images_from_csv ratio max_lines oracle rows →
      p = debugCanvasPath n ∨ p = debugMaskPath n) := by
  constructor
  · intro h
    obtain ⟨hp, _, h1, hlt, hnb⟩ :=
      processRows_wroteFinal ratio max_lines oracle rows 1 0 n p h
    exact ⟨hp, h1, hlt, hnb⟩
  · intro h
    exact processRows_wroteDebug ratio max_lines oracle rows 1 0 n p h

/-- Witness for C7 at the concrete blank-then-prompt CSV: the record of
row 2 is written as 2.png with its debug canvas path. -/
theorem C7_witness :
    (finalPath 2 = finalPath 2 ∧ 1 ≤ 2 ∧
      2 - 1 < ([[""], ["a cat"]] : List (List String)).length ∧
      rowBlank (([[""], ["a cat"]] : List (List String)).getD (2 - 1) []) = false)
  ∧ (debugCanvasPath 2 = debugCanvasPath 2 ∨ debugCanvasPath 2 = debugMaskPath 2) :=
  ⟨(C7_line_numbers "16:9" none allOk [[""], ["a cat"]] 2 (finalPath 2)).1 (by decide),
   (C7_line_numbers "16:9" none allOk [[""], ["a cat"]] 2 (debugCanvasPath 2)).2 (by decide)⟩

/-- The concrete CSV of the limit/skip ordering scenario: "a cat", a blank
row, "a dog". -/
def rows8 : List (List String) := [["a cat"], [""], ["a dog"]]

/-- C8 counterexample: with limit 1, line 2 (the blank row) is never logged
as an empty-line skip — the limit check runs first and stops the loop
there. -/
theorem C8_counterexample :
    Event.skipEmpty 2 ∉ generate_images_from_csv "16:9" (some 1) allOk rows8 := by
  decide

/-- C8 as amended: for the CSV ["a cat", "", "a dog"] with limit 1, line 1
produces 1.png and its two debug files; the limit check is applied before
the empty-prompt skip, so line 2 triggers the limit stop (it is not logged
as an empty skip) and line 3 is never reached. -/
theorem C8_limit_checked_first :
    generate_images_from_csv "16:9" (some 1) allOk rows8 =
      [.genRequested 1, .wroteDebug 1 (debugCanvasPath 1),
       .wroteDebug 1 (debugMaskPath 1), .wroteFinal 1 (finalPath 1),
       .limitStop 2] := by
  decide

end NurseryAI
